import Mathlib

/-
Shallow embedding of the client-side reconciliation coordination layer of the
payment-reconciliation-frontend repository, together with proofs settling the
frozen claims about it.

Embedded source files:
  * src/store (transactions slice): state shape, reducers and extra-reducers
    for `fetchBatchTransactions`, `confirmMatch`, `setFilterStatus`, and the
    `mapStatusToEnum` helper;
  * src/components/ReconciliationProgress.tsx: the polling state machine
    (`fetchBatchStatus`, `handleRetry`) with linear backoff and abandonment;
  * src/components/TransactionsTable.tsx and the TransactionActions component:
    the per-row action pipeline (which buttons are rendered for which status,
    the per-row disabled gate) through which all single-row actions are
    dispatched;
  * src/components/ManualMatchModal.tsx: the debounced invoice search
    (`doSearchInvoices`, the 300 ms debounce effect).

Modelling conventions: JavaScript numbers are IEEE-754 binary64 values,
embedded as canonical mantissa/binary-exponent pairs (`JsFloat`), obtained by
exact decimal parsing (`Dec`) followed by round-to-nearest-even conversion;
`String(n)` is the shortest-round-trip decimal rendering of the
Number::toString specification.  JS strings are Lean strings, with
character-list implementations of `trim` and `toLowerCase` (ASCII, which is
all the code relies on); JS object index reads include the `Object.prototype`
chain.  Async thunks are embedded as their pending/fulfilled/rejected reducer
transitions on the slice state plus the network request their payload creator
issues; interleavings are explicit sequences of these transitions.
-/

namespace PaymentRecon

/-! ## JS string primitives (character-list model) -/

/-- JS `String.prototype.toLowerCase` (ASCII range, which is all
`mapStatusToEnum` relies on). -/
def jsToLower (s : String) : String := String.mk (s.data.map Char.toLower)

/-- JS `String.prototype.trim`: strip whitespace from both ends. -/
def jsTrim (s : String) : String :=
  String.mk (((s.data.dropWhile Char.isWhitespace).reverse.dropWhile
    Char.isWhitespace).reverse)

/-- JS `a || b` on an optional string: `undefined` and the empty string are
falsy and fall through to the default. -/
def jsOrString (a : Option String) (b : String) : String :=
  match a with
  | some s => if s = "" then b else s
  | none => b

/-! ## Exact decimals

Decimal literals (transaction amounts as carried by the API, the textual
stage of `parseFloat`) are embedded exactly as `mant * 10 ^ exp`; the
conversion to the runtime JS number (an IEEE-754 double) is `decToJsFloat`
below. -/

/-- Exact decimal number: the value `mant * 10 ^ exp`. -/
structure Dec where
  mant : Int
  exp : Int
  deriving DecidableEq, Repr

/-- Rational value of a `Dec` (specification-side semantics only). -/
def Dec.val (d : Dec) : ℚ := (d.mant : ℚ) * (10 : ℚ) ^ d.exp

/-! ## Data model (src/lib/types.ts) -/

/-- Transaction match status (src/lib/types.ts `enum MatchStatus`). -/
inductive MatchStatus
  | AUTO_MATCHED
  | NEEDS_REVIEW
  | UNMATCHED
  | CONFIRMED
  | EXTERNAL
  deriving DecidableEq, Repr

/-- Batch processing status (src/lib/types.ts `enum BatchStatus`). -/
inductive BatchStatus
  | UPLOADING
  | PROCESSING
  | COMPLETED
  | FAILED
  deriving DecidableEq, Repr

/-- Matched-invoice summary carried on a transaction. -/
structure MatchedInvoice where
  id : String
  invoiceNumber : String
  customerName : String
  amount : Dec
  deriving DecidableEq, Repr

/-- Frontend bank transaction (src/lib/types.ts `BankTransaction`; fields not
touched by the embedded logic are omitted). -/
structure BankTransaction where
  id : String
  transactionDate : String
  description : String
  amount : Dec
  status : MatchStatus
  confidenceScore : Option Dec
  matchedInvoice : Option MatchedInvoice
  batchId : String
  deriving DecidableEq, Repr

/-- Reconciliation batch snapshot (src/lib/types.ts `ReconciliationBatch`). -/
structure Batch where
  id : String
  filename : String
  status : BatchStatus
  totalTransactions : Nat
  processedCount : Nat
  autoMatchedCount : Nat
  needsReviewCount : Nat
  unmatchedCount : Nat
  deriving DecidableEq, Repr

/-! ## Transactions slice (src/store transactions slice) -/

/-- Single-row action kind tracked by the slice
(`type ActionType = 'confirm' | 'reject' | 'match' | 'external'`).
`match` is a Lean keyword, hence `matchTxn`. -/
inductive ActionType
  | confirm
  | reject
  | matchTxn
  | external
  deriving DecidableEq, Repr

/-- The `actionLoading` marker: `{ id: string; type: ActionType }`. -/
structure ActionLoading where
  id : String
  actionType : ActionType
  deriving DecidableEq, Repr

/-- Offset-pagination metadata. -/
structure Pagination where
  page : Nat
  limit : Nat
  total : Nat
  totalPages : Nat
  deriving DecidableEq, Repr

/-- `TransactionsState` of the transactions slice. -/
structure TransactionsState where
  transactions : List BankTransaction
  currentTransaction : Option BankTransaction
  loading : Bool
  loadingMore : Bool
  currentTransactionLoading : Bool
  error : Option String
  nextCursor : Option String
  hasMore : Bool
  filterStatus : Option MatchStatus
  currentBatchId : Option String
  actionLoading : Option ActionLoading
  bulkConfirmLoading : Bool
  pagination : Pagination
  deriving DecidableEq, Repr

/-- The slice's `initialState`. -/
def initialState : TransactionsState where
  transactions := []
  currentTransaction := none
  loading := false
  loadingMore := false
  currentTransactionLoading := false
  error := none
  nextCursor := none
  hasMore := false
  filterStatus := none
  currentBatchId := none
  actionLoading := none
  bulkConfirmLoading := false
  pagination := { page := 1, limit := 50, total := 0, totalPages := 0 }

/-- Backend-status/frontend-enum table (the `statusMap` object literal inside
`mapStatusToEnum`). -/
def statusMap : List (String × MatchStatus) :=
  [("auto_matched", MatchStatus.AUTO_MATCHED),
   ("needs_review", MatchStatus.NEEDS_REVIEW),
   ("unmatched", MatchStatus.UNMATCHED),
   ("confirmed", MatchStatus.CONFIRMED),
   ("external", MatchStatus.EXTERNAL),
   ("pending", MatchStatus.NEEDS_REVIEW)]

/-- Property names a plain object literal inherits from `Object.prototype`
(exact JS casing).  An index read on one of these yields the inherited
value — a function, or an object for `__proto__` — which is truthy, so a
`|| fallback` after the read does not fire.  Because `mapStatusToEnum`
lowercases its key first, only the all-lowercase names (`constructor`,
`__proto__`) are reachable through it. -/
def objectPrototypeMembers : List String :=
  ["constructor", "hasOwnProperty", "isPrototypeOf", "propertyIsEnumerable",
   "toLocaleString", "toString", "valueOf", "__proto__", "__defineGetter__",
   "__defineSetter__", "__lookupGetter__", "__lookupSetter__"]

/-- Runtime result of `statusMap[key] || 'UNMATCHED'`: one of the mapped enum
values (own property, or the fallback), or a truthy non-enum value inherited
from `Object.prototype`, which the `||` keeps and which is not a valid
`MatchStatus` (the `Record<string, MatchStatus>` annotation notwithstanding). -/
inductive StatusLookupResult
  | enum (v : MatchStatus)
  | inherited (name : String)
  deriving DecidableEq, Repr

/-- Map a backend status string through
`statusMap[status.toLowerCase()] || 'UNMATCHED'`: an own property of the
object literal wins; otherwise the lookup walks the prototype chain, and only
when that also misses is the result `undefined`, making `||` produce
UNMATCHED. -/
def mapStatusToEnum (status : String) : StatusLookupResult :=
  match statusMap.lookup (jsToLower status) with
  | some v => StatusLookupResult.enum v
  | none =>
      if jsToLower status ∈ objectPrototypeMembers then
        StatusLookupResult.inherited (jsToLower status)
      else StatusLookupResult.enum MatchStatus.UNMATCHED

/-- Payload of a fulfilled `fetchBatchTransactions` thunk: the rows, cursor
information (cursor mode) or pagination metadata (page mode), and the `append`
flag echoed from the request. -/
structure FetchFulfilledPayload where
  data : List BankTransaction
  nextCursor : Option String
  hasMore : Option Bool
  append : Bool
  pagination : Option Pagination
  deriving DecidableEq, Repr

/-- Reducer `setFilterStatus`: set the filter and clear the loaded rows,
cursor and has-more flag. -/
def setFilterStatus (s : TransactionsState) (status : Option MatchStatus) :
    TransactionsState :=
  { s with filterStatus := status, transactions := [], nextCursor := none,
           hasMore := false }

/-- Reducer `setCurrentBatchId`: on a batch change, reset the collection. -/
def setCurrentBatchId (s : TransactionsState) (batchId : String) :
    TransactionsState :=
  if s.currentBatchId ≠ some batchId then
    { s with currentBatchId := some batchId, transactions := [],
             nextCursor := none, hasMore := false }
  else s

/-- Case `fetchBatchTransactions.pending`. -/
def fetchBatchTransactionsPending (s : TransactionsState) (append : Bool) :
    TransactionsState :=
  if append then { s with loadingMore := true, error := none }
  else { s with loading := true, error := none }

/-- Case `fetchBatchTransactions.fulfilled`: append or replace the rows, then
take cursor bookkeeping from the payload.  The reducer does not consult the
filter the fetch was issued under. -/
def fetchBatchTransactionsFulfilled (s : TransactionsState)
    (p : FetchFulfilledPayload) : TransactionsState :=
  let s1 := { s with loading := false, loadingMore := false }
  let s2 :=
    if p.append then { s1 with transactions := s1.transactions ++ p.data }
    else { s1 with transactions := p.data }
  match p.pagination with
  | some pg =>
      { s2 with pagination := pg, hasMore := decide (pg.page < pg.totalPages) }
  | none =>
      { s2 with nextCursor := p.nextCursor, hasMore := p.hasMore.getD false }

/-- Case `fetchBatchTransactions.rejected`. -/
def fetchBatchTransactionsRejected (s : TransactionsState)
    (payload : Option String) : TransactionsState :=
  { s with loading := false, loadingMore := false,
           error := some (jsOrString payload "Failed to fetch transactions") }

/-- Case `confirmMatch.pending`: record the in-flight marker. -/
def confirmMatchPending (s : TransactionsState) (transactionId : String) :
    TransactionsState :=
  { s with actionLoading := some ⟨transactionId, ActionType.confirm⟩ }

/-- Case `confirmMatch.fulfilled`: clear the marker and replace the matching
row (by `findIndex` on id) with the server-returned transaction. -/
def confirmMatchFulfilled (s : TransactionsState) (payload : BankTransaction) :
    TransactionsState :=
  let s1 := { s with actionLoading := none }
  match s1.transactions.findIdx? (fun t => t.id == payload.id) with
  | some index => { s1 with transactions := s1.transactions.set index payload }
  | none => s1

/-- Case `confirmMatch.rejected`. -/
def confirmMatchRejected (s : TransactionsState) (payload : Option String) :
    TransactionsState :=
  { s with actionLoading := none,
           error := some (jsOrString payload "Failed to confirm") }

/-- Case `rejectMatch.pending`. -/
def rejectMatchPending (s : TransactionsState) (transactionId : String) :
    TransactionsState :=
  { s with actionLoading := some ⟨transactionId, ActionType.reject⟩ }

/-- Case `markExternal.pending`. -/
def markExternalPending (s : TransactionsState) (transactionId : String) :
    TransactionsState :=
  { s with actionLoading := some ⟨transactionId, ActionType.external⟩ }

/-! ## Network requests issued by the thunks (src/store + src/lib/api.ts) -/

/-- A network request as issued through the api client. -/
inductive NetworkRequest
  | get (path : String)
  | post (path : String)
  deriving DecidableEq, Repr

/-- Request issued by the `confirmMatch` payload creator. -/
def confirmMatchRequest (transactionId : String) : NetworkRequest :=
  NetworkRequest.post ("/api/v1/transactions/" ++ transactionId ++ "/confirm")

/-- Request issued by the `rejectMatch` payload creator. -/
def rejectMatchRequest (transactionId : String) : NetworkRequest :=
  NetworkRequest.post ("/api/v1/transactions/" ++ transactionId ++ "/reject")

/-- Request issued by the `markExternal` payload creator. -/
def markExternalRequest (transactionId : String) : NetworkRequest :=
  NetworkRequest.post ("/api/v1/transactions/" ++ transactionId ++ "/external")

/-! ## Batch progress poller (src/components/ReconciliationProgress.tsx)

The component keeps three refs (`shouldPollRef`, `pollTimeoutRef`,
`consecutiveErrorsRef`) and schedules the next `fetchBatchStatus` with
`setTimeout`.  We embed the ref cell contents plus the pending timeout's delay
as a state record, and each resolution of the awaited `fetchBatchById` thunk
(success snapshot or rejection) as one step of the callback body. -/

/-- `POLLING_INTERVALS.BATCH_PROGRESS` (src/lib/constants.ts), in ms. -/
def BATCH_PROGRESS : Nat := 2000

/-- Poller state: the ref cells of `ReconciliationProgress` plus the delay of
the pending `setTimeout` (if one is scheduled) and the surfaced callbacks. -/
structure PollerState where
  shouldPoll : Bool
  consecutiveErrors : Nat
  pendingDelay : Option Nat
  surfacedError : Option String
  completedCalled : Bool
  currentBatch : Option Batch
  deriving DecidableEq, Repr

/-- Resolution of one `fetchBatchById` round trip. -/
inductive PollOutcome
  | success (batch : Batch)
  | failure (message : Option String)
  deriving DecidableEq, Repr

/-- The error message surfaced after the error threshold: the thrown string if
there is one, else the generic connectivity message. -/
def pollAbandonMessage (message : Option String) : String :=
  match message with
  | some m => m
  | none => "Failed to fetch progress. Please check your connection."

/-- Body of `fetchBatchStatus` once its awaited fetch resolves.  On success:
reset the error counter, publish the snapshot, stop on a terminal batch
status, otherwise schedule the next poll after the base interval.  On failure:
increment the counter; at 3 consecutive errors stop polling and surface the
error, otherwise schedule a retry after `base * count` (linear backoff). -/
def fetchBatchStatus (s : PollerState) (o : PollOutcome) : PollerState :=
  match o with
  | PollOutcome.success b =>
      let s1 := { s with consecutiveErrors := 0, currentBatch := some b }
      if b.status = BatchStatus.COMPLETED then
        { s1 with shouldPoll := false, completedCalled := true }
      else if b.status = BatchStatus.FAILED then
        { s1 with shouldPoll := false,
                  surfacedError :=
                    some "Reconciliation failed. Please try again." }
      else if s1.shouldPoll then
        { s1 with pendingDelay := some BATCH_PROGRESS }
      else s1
  | PollOutcome.failure message =>
      let s1 := { s with consecutiveErrors := s.consecutiveErrors + 1 }
      if 3 ≤ s1.consecutiveErrors then
        { s1 with shouldPoll := false,
                  surfacedError := some (pollAbandonMessage message) }
      else if s1.shouldPoll then
        { s1 with pendingDelay := some (BATCH_PROGRESS * s1.consecutiveErrors) }
      else s1

/-- External events driving the poller: a pending timeout fires (issuing a
fetch that resolves with the given outcome), or the user presses Retry
(`handleRetry`: reset the counter, re-enable polling, fetch immediately). -/
inductive PollerEvent
  | timerFires (o : PollOutcome)
  | retryClick (o : PollOutcome)
  deriving DecidableEq, Repr

/-- One event step; the second component counts status fetches issued by the
step (a timeout that is not pending issues none). -/
def pollerStep (s : PollerState) (e : PollerEvent) : PollerState × Nat :=
  match e with
  | PollerEvent.timerFires o =>
      match s.pendingDelay with
      | some _ => (fetchBatchStatus { s with pendingDelay := none } o, 1)
      | none => (s, 0)
  | PollerEvent.retryClick o =>
      (fetchBatchStatus
        { s with shouldPoll := true, consecutiveErrors := 0,
                 pendingDelay := none } o, 1)

/-- Run a sequence of poller events, accumulating the fetch count. -/
def runPoller : PollerState → List PollerEvent → PollerState × Nat
  | s, [] => (s, 0)
  | s, e :: es =>
      let r := pollerStep s e
      let rest := runPoller r.1 es
      (rest.1, r.2 + rest.2)

/-- The state reached from `s` after three consecutive poll failures (each
consuming the pending timer). -/
def afterThreeFailures (s : PollerState) (m1 m2 m3 : Option String) :
    PollerState :=
  (pollerStep
    (pollerStep
      (pollerStep s (PollerEvent.timerFires (PollOutcome.failure m1))).1
      (PollerEvent.timerFires (PollOutcome.failure m2))).1
    (PollerEvent.timerFires (PollOutcome.failure m3))).1

/-! ## Per-row action pipeline
(TransactionActions component + TransactionsTable + the dashboard page)

All single-row actions are dispatched through the row's action buttons: the
TransactionActions component renders a button for an action only when the
transaction's status permits it (`canConfirm` .. `canMarkExternal`), and every
rendered button is `disabled` while this row's action is in flight
(`isActionLoading = actionLoadingId === txn.id`, wired in TransactionsTable).
A click on an enabled button runs the page handler, which dispatches the
thunk; the thunk's pending reducer records the in-flight marker and its
payload creator issues exactly one POST. -/

/-- Action kinds of the TransactionActions component
(`'confirm' | 'reject' | 'findMatch' | 'markExternal'`). -/
inductive UIActionType
  | confirm
  | reject
  | findMatch
  | markExternal
  deriving DecidableEq, Repr

/-- `canConfirm`: status is AUTO_MATCHED or NEEDS_REVIEW. -/
def canConfirm (status : MatchStatus) : Bool :=
  status == MatchStatus.AUTO_MATCHED || status == MatchStatus.NEEDS_REVIEW

/-- `canReject`: status is AUTO_MATCHED or NEEDS_REVIEW. -/
def canReject (status : MatchStatus) : Bool :=
  status == MatchStatus.AUTO_MATCHED || status == MatchStatus.NEEDS_REVIEW

/-- `canFindMatch`: status is NEEDS_REVIEW or UNMATCHED. -/
def canFindMatch (status : MatchStatus) : Bool :=
  status == MatchStatus.NEEDS_REVIEW || status == MatchStatus.UNMATCHED

/-- `canMarkExternal`: status is UNMATCHED. -/
def canMarkExternal (status : MatchStatus) : Bool :=
  status == MatchStatus.UNMATCHED

/-- Whether TransactionActions renders a button for the given action. -/
def actionRendered (status : MatchStatus) : UIActionType → Bool
  | UIActionType.confirm => canConfirm status
  | UIActionType.reject => canReject status
  | UIActionType.findMatch => canFindMatch status
  | UIActionType.markExternal => canMarkExternal status

/-- TransactionsTable row wiring: `isActionLoading = actionLoadingId === txn.id`
where `actionLoadingId = actionLoading?.id`. -/
def isActionLoadingFor (s : TransactionsState) (txnId : String) : Bool :=
  match s.actionLoading with
  | some al => al.id == txnId
  | none => false

/-- A user click on action `a` of transaction `t`'s row: nothing happens if
the button is not rendered (status does not permit the action) or is disabled
(this row has an action in flight); otherwise the page handler dispatches the
thunk, whose pending reducer marks the action in flight and whose payload
creator issues one request.  Find-match opens the manual-match modal and
issues no request by itself.  (The confirmation dialog the destructive buttons
open first is collapsed into the click: its action button closes the dialog
and invokes the handler once, and reopening requires the gated row button.) -/
def clickRowAction (s : TransactionsState) (t : BankTransaction)
    (a : UIActionType) : TransactionsState × List NetworkRequest :=
  if actionRendered t.status a = false then (s, [])
  else if isActionLoadingFor s t.id then (s, [])
  else
    match a with
    | UIActionType.confirm =>
        (confirmMatchPending s t.id, [confirmMatchRequest t.id])
    | UIActionType.reject =>
        (rejectMatchPending s t.id, [rejectMatchRequest t.id])
    | UIActionType.findMatch => (s, [])
    | UIActionType.markExternal =>
        (markExternalPending s t.id, [markExternalRequest t.id])

/-! ## Invoice search and debouncing (src/components/ManualMatchModal.tsx) -/

/-- Debounce quiet period (`DEBOUNCE_DELAY`), in ms. -/
def DEBOUNCE_DELAY : Nat := 300

/-- Take the longest leading run of ASCII digits. -/
def spanDigits (cs : List Char) : List Char × List Char :=
  (cs.takeWhile Char.isDigit, cs.dropWhile Char.isDigit)

/-- Numeric value of a digit string. -/
def digitsVal (ds : List Char) : Nat :=
  ds.foldl (fun acc c => 10 * acc + (c.toNat - 48)) 0

/-- Parse the significand of a JS decimal literal (`Digits ['.' Digits?]` or
`'.' Digits`), returning the combined digit value, the fraction length, and
the unconsumed rest; `none` when no digits are present. -/
def parseSignificand (cs : List Char) : Option (Nat × Nat × List Char) :=
  let (ip, rest) := spanDigits cs
  match rest with
  | '.' :: rest2 =>
      let (fp, rest3) := spanDigits rest2
      if ip.isEmpty && fp.isEmpty then none
      else some (digitsVal (ip ++ fp), fp.length, rest3)
  | _ => if ip.isEmpty then none else some (digitsVal ip, 0, rest)

/-- Parse an optional exponent part (`e`/`E`, optional sign, digits); when the
digits are missing the exponent marker is not consumed (JS backtracks). -/
def parseExponent : List Char → Int × List Char
  | [] => (0, [])
  | c :: rest =>
      if c = 'e' ∨ c = 'E' then
        match rest with
        | '+' :: rest2 =>
            let (ds, rest3) := spanDigits rest2
            if ds.isEmpty then (0, c :: rest) else ((digitsVal ds : Int), rest3)
        | '-' :: rest2 =>
            let (ds, rest3) := spanDigits rest2
            if ds.isEmpty then (0, c :: rest)
            else (-(digitsVal ds : Int), rest3)
        | _ =>
            let (ds, rest3) := spanDigits rest
            if ds.isEmpty then (0, c :: rest) else ((digitsVal ds : Int), rest3)
      else (0, c :: rest)

/-- Digit characters of a positive natural, most significant first
(fuel-based so that it reduces in the kernel). -/
def natDigitsAux : Nat → Nat → List Char
  | 0, _ => []
  | fuel + 1, n =>
      if n = 0 then [] else natDigitsAux fuel (n / 10) ++ [Char.ofNat (48 + n % 10)]

/-- Strip factors of 10 from a mantissa, moving them into the exponent. -/
def stripTrailingZeros : Nat → Nat → Int → Nat × Int
  | 0, n, e => (n, e)
  | fuel + 1, n, e =>
      if n % 10 = 0 ∧ n ≠ 0 then stripTrailingZeros fuel (n / 10) (e + 1)
      else (n, e)

/-! ### IEEE-754 binary64 model

JS numbers are IEEE-754 doubles.  A finite double is `mant × 2 ^ exp` in the
canonical form produced by rounding: `mant = 0` (zero), `|mant| < 2 ^ 52` with
`exp = -1074` (subnormal), or `2 ^ 52 ≤ |mant| < 2 ^ 53` (normal), which makes
structural equality coincide with value equality.  NaN is represented as
`none` at the `parseFloat` level (its only producer here). -/

/-- A JS number: a canonical finite double or an infinity. -/
inductive JsFloat
  | finite (mant : Int) (exp : Int)
  | infinite (negative : Bool)
  deriving DecidableEq, Repr

/-- Round `N / D` to the nearest integer, ties to even. -/
def roundHalfEven (N D : Nat) : Nat :=
  let q := N / D
  let r := N % D
  if D < 2 * r then q + 1
  else if 2 * r < D then q
  else if q % 2 = 0 then q else q + 1

/-- Scale the positive fraction `N / D` by powers of two until it lies in
`[2 ^ 52, 2 ^ 53)`, tracking the binary exponent (fuel-based; steps of
`2 ^ 64` first, to keep the recursion shallow for large exponents). -/
def scaleToMantissa : Nat → Nat → Nat → Int → Nat × Nat × Int
  | 0, N, D, e => (N, D, e)
  | fuel + 1, N, D, e =>
      if 2 ^ 117 * D ≤ N then scaleToMantissa fuel N (D * 2 ^ 64) (e + 64)
      else if N * 2 ^ 12 < 2 ^ 52 * D then
        scaleToMantissa fuel (N * 2 ^ 64) D (e - 64)
      else if 2 ^ 53 * D ≤ N then scaleToMantissa fuel N (D * 2) (e + 1)
      else if N < 2 ^ 52 * D then scaleToMantissa fuel (N * 2) D (e - 1)
      else (N, D, e)

/-- Round an exact decimal to the nearest binary64 value (round half to even),
with overflow to infinity past the maximum double and gradual underflow
through the subnormals to zero. -/
def decToJsFloat (d : Dec) : JsFloat :=
  if d.mant = 0 then JsFloat.finite 0 0
  else
    let neg := d.mant < 0
    let m := d.mant.natAbs
    let ab : Nat × Nat :=
      if 0 ≤ d.exp then (m * 10 ^ d.exp.toNat, 1) else (m, 10 ^ (-d.exp).toNat)
    let fuel := 7 * ((natDigitsAux m m).length + d.exp.natAbs + 64)
    let sc := scaleToMantissa fuel ab.1 ab.2 0
    let e := sc.2.2
    if 971 < e then JsFloat.infinite neg
    else if e < -1074 then
      let q := roundHalfEven (ab.1 * 2 ^ 1074) ab.2
      if q = 0 then JsFloat.finite 0 0
      else JsFloat.finite (if neg then -(q : Int) else (q : Int)) (-1074)
    else
      let q := roundHalfEven sc.1 sc.2.1
      if q = 2 ^ 53 then
        if 971 < e + 1 then JsFloat.infinite neg
        else JsFloat.finite
          (if neg then -((2 : Int) ^ 52) else (2 : Int) ^ 52) (e + 1)
      else JsFloat.finite (if neg then -(q : Int) else (q : Int)) e

/-- Result of the textual stage of `parseFloat`: an exact decimal literal or
an `Infinity` literal. -/
inductive ParsedNum
  | finite (d : Dec)
  | infinite (negative : Bool)
  deriving DecidableEq, Repr

/-- Textual stage of JS `parseFloat` on a character list: skip leading
whitespace, optional sign, then either the `Infinity` literal or a decimal
significand with optional exponent; yields the parsed literal and the
unconsumed suffix, or `none` for NaN. -/
def parseFloatAux (cs0 : List Char) : Option (ParsedNum × List Char) :=
  let cs := cs0.dropWhile Char.isWhitespace
  let sign : Bool × List Char :=
    match cs with
    | '+' :: r => (false, r)
    | '-' :: r => (true, r)
    | _ => (false, cs)
  if sign.2.take 8 = ['I', 'n', 'f', 'i', 'n', 'i', 't', 'y'] then
    some (ParsedNum.infinite sign.1, sign.2.drop 8)
  else
    match parseSignificand sign.2 with
    | none => none
    | some (m, fracLen, rest) =>
        let e := parseExponent rest
        some (ParsedNum.finite
          { mant := if sign.1 then -(m : Int) else (m : Int),
            exp := e.1 - fracLen }, e.2)

/-- JS `parseFloat` on a string: textual parse followed by rounding to the
nearest double (`none` = NaN). -/
def jsParseFloat (s : String) : Option JsFloat :=
  (parseFloatAux s.data).map (fun p =>
    match p.1 with
    | ParsedNum.finite d => decToJsFloat d
    | ParsedNum.infinite neg => JsFloat.infinite neg)

/-- Whether the positive double `M × 2 ^ E` is at least `10 ^ p`
(exact integer cross-multiplication). -/
def gePow10 (M : Nat) (E p : Int) : Bool :=
  10 ^ p.toNat * 2 ^ (-E).toNat ≤ M * 2 ^ E.toNat * 10 ^ (-p).toNat

/-- Search upward for the first `p` with `M × 2 ^ E < 10 ^ p`. -/
def findDecExpUp : Nat → Nat → Int → Int → Int
  | 0, _, _, p => p
  | fuel + 1, M, E, p =>
      if gePow10 M E p then findDecExpUp fuel M E (p + 1) else p

/-- Search downward for the `p` with `10 ^ (p - 1) ≤ M × 2 ^ E < 10 ^ p`. -/
def findDecExpDown : Nat → Nat → Int → Int → Int
  | 0, _, _, p => p
  | fuel + 1, M, E, p =>
      if gePow10 M E (p - 1) then p else findDecExpDown fuel M E (p - 1)

/-- The decimal position `n` of the positive double `M × 2 ^ E`, defined by
`10 ^ (n - 1) ≤ M × 2 ^ E < 10 ^ n` (400 fuel covers the double range). -/
def decimalExponent (M : Nat) (E : Int) : Int :=
  if gePow10 M E 0 then findDecExpUp 400 M E 1 else findDecExpDown 400 M E 0

/-- Among two `k`-digit candidates (scaled by `A`, target `VV`), the one whose
value is closer to the target; ties go to the even candidate. -/
def pickBetter (VV A c1 c2 : Nat) : Nat :=
  let d1 := Nat.dist (c1 * A) VV
  let d2 := Nat.dist (c2 * A) VV
  if d1 < d2 then c1
  else if d2 < d1 then c2
  else if c1 % 2 = 0 then c1 else c2

/-- Best `k`-significant-digit decimal `s` (with `v ≈ s × 10 ^ (n - k)`) that
rounds back to the double `M × 2 ^ E`, if one exists: try the nearest `k`-digit
decimal and its two neighbours, keep those that round-trip, pick the closest
(ties to even), per the Number::toString specification. -/
def bestRoundTrip (M : Nat) (E n : Int) (k : Nat) : Option Nat :=
  let g : Int := n - (k : Int)
  let A := 10 ^ g.toNat * 2 ^ (-E).toNat
  let VV := M * 2 ^ E.toNat * 10 ^ (-g).toNat
  let s0 := roundHalfEven VV A
  let cands := ([s0 - 1, s0, s0 + 1] : List Nat).filter (fun s =>
    decide (10 ^ (k - 1) ≤ s ∧ s ≤ 10 ^ k) &&
    decide (decToJsFloat { mant := Int.ofNat s, exp := g }
      = JsFloat.finite (Int.ofNat M) E))
  match cands with
  | [] => none
  | c :: cs => some (cs.foldl (fun best s => pickBetter VV A best s) c)

/-- Shortest digit string for the positive double `M × 2 ^ E`: the smallest
`k ≥ 1` admitting a round-tripping `k`-digit decimal (17 digits always
suffice for a double); returns the digit value and the decimal position,
normalizing the `10 ^ k` carry. -/
def searchShortestFrom (M : Nat) (E n : Int) : Nat → Nat → Nat × Int
  | _, 0 => (roundHalfEven (M * 2 ^ E.toNat * 10 ^ (17 - n).toNat)
      (10 ^ (n - 17).toNat * 2 ^ (-E).toNat), n)
  | k, fuel + 1 =>
      match bestRoundTrip M E n k with
      | some s => if s = 10 ^ k then (10 ^ (k - 1), n + 1) else (s, n)
      | none => searchShortestFrom M E n (k + 1) fuel

/-- Assemble the decimal rendering of digit characters `ds` at decimal
position `n`, following the Number::toString layout: plain integer form for
`k ≤ n ≤ 21`, an internal decimal point for `0 < n ≤ 21`, a leading
`0.00…` for `-6 < n ≤ 0`, and exponent notation (`d.ddd e±(n-1)`)
otherwise. -/
def renderDigits (ds : List Char) (n : Int) : List Char :=
  let k : Int := ds.length
  if k ≤ n ∧ n ≤ 21 then ds ++ List.replicate (n - k).toNat '0'
  else if 0 < n ∧ n ≤ 21 then ds.take n.toNat ++ ['.'] ++ ds.drop n.toNat
  else if -6 < n ∧ n ≤ 0 then
    ['0', '.'] ++ List.replicate (-n).toNat '0' ++ ds
  else
    let expVal := n - 1
    let expDigits := natDigitsAux expVal.natAbs expVal.natAbs
    (ds.take 1 ++ (if ds.length = 1 then [] else ['.'] ++ ds.drop 1)) ++
      ['e'] ++ (if 0 ≤ expVal then ['+'] else ['-']) ++ expDigits

/-- JS `String(n)` for a number: `Infinity` for infinities, `0` for zeros,
and, for finite nonzero values: sign, then the shortest round-tripping digit
string laid out by `renderDigits`. -/
def jsNumToString (v : JsFloat) : String :=
  match v with
  | JsFloat.infinite neg => if neg then "-Infinity" else "Infinity"
  | JsFloat.finite mant exp =>
      if mant = 0 then "0"
      else
        let M := mant.natAbs
        let n := decimalExponent M exp
        let sn := searchShortestFrom M exp n 1 17
        let stripped := stripTrailingZeros sn.1 sn.1 0
        let ds := natDigitsAux stripped.1 stripped.1
        let core := renderDigits ds sn.2
        String.mk (if mant < 0 then '-' :: core else core)

/-- A `searchInvoices` request: exact-amount or free-text, with the limit. -/
inductive SearchRequest
  | byAmount (amount : JsFloat) (limit : Nat)
  | byText (q : String) (limit : Nat)
  deriving DecidableEq, Repr

/-- Fallback branches of `doSearchInvoices`: non-empty trimmed input searches
by customer name; empty input seeds the search with the amount of the
transaction being matched, when there is one.  The transaction's amount is a
JS number at runtime; `decToJsFloat` is the bridge from its exact-decimal
model. -/
def searchFallback (query : String) (transaction : Option BankTransaction) :
    List SearchRequest :=
  if jsTrim query ≠ "" then [SearchRequest.byText (jsTrim query) 20]
  else
    match transaction with
    | some t => [SearchRequest.byAmount (decToJsFloat t.amount) 20]
    | none => []

/-- `doSearchInvoices` of ManualMatchModal: if
`!isNaN(parseFloat(query)) && query.trim() === String(parseFloat(query))`,
search by exact amount; otherwise fall back to text / seed search.  Returns
the list of `searchInvoices` dispatches the call issues. -/
def doSearchInvoices (query : String) (transaction : Option BankTransaction) :
    List SearchRequest :=
  match jsParseFloat query with
  | some numericQuery =>
      if jsTrim query == jsNumToString numericQuery then
        [SearchRequest.byAmount numericQuery 20]
      else searchFallback query transaction
  | none => searchFallback query transaction

/-- Timed input burst: each entry is an input value together with the time gap
(ms) to the next input.  The debounce effect resets the 300 ms timer on every
input, so an input's value settles (reaches `setDebouncedQuery`) exactly when
the following input arrives no sooner than the quiet period; the final input
always settles. -/
def settledValues : List (String × Nat) → List String
  | [] => []
  | [(v, _)] => [v]
  | (v, gap) :: next :: rest =>
      (if DEBOUNCE_DELAY ≤ gap then [v] else []) ++ settledValues (next :: rest)

/-- Searches issued as the settled values reach the search effect.  The effect
reruns only when the debounced value actually changes (React state identity),
and its body runs `doSearchInvoices` when the settled value is non-empty or a
search has already happened (`if (debouncedQuery || hasSearched)`);
`doSearchInvoices` itself sets `hasSearched`. -/
def searchesAfterSettle (transaction : Option BankTransaction) :
    List String → String → Bool → List SearchRequest
  | [], _, _ => []
  | v :: rest, prev, hasSearched =>
      if v = prev then searchesAfterSettle transaction rest prev hasSearched
      else if v ≠ "" ∨ hasSearched then
        doSearchInvoices v transaction ++
          searchesAfterSettle transaction rest v true
      else searchesAfterSettle transaction rest v hasSearched

/-! ## Spec-side definitions used to state the claims

These two definitions follow the wording of the spec/claims (not the source)
and are compared against the source-derived definitions above. -/

/-- Claim-side predicate: the trimmed input parses entirely as a number, that
is, JS `parseFloat` consumes the whole trimmed string. -/
def parsesEntirelyAsNumber (s : String) : Bool :=
  match parseFloatAux (jsTrim s).data with
  | some (_, rest) => rest.isEmpty
  | none => false

/-- Claim-side legal action matrix: confirm/reject exactly on AUTO_MATCHED and
NEEDS_REVIEW, find-match exactly on NEEDS_REVIEW and UNMATCHED, mark-external
exactly on UNMATCHED, nothing on CONFIRMED or EXTERNAL. -/
def legalActionMatrix : List (MatchStatus × UIActionType) :=
  [(MatchStatus.AUTO_MATCHED, UIActionType.confirm),
   (MatchStatus.AUTO_MATCHED, UIActionType.reject),
   (MatchStatus.NEEDS_REVIEW, UIActionType.confirm),
   (MatchStatus.NEEDS_REVIEW, UIActionType.reject),
   (MatchStatus.NEEDS_REVIEW, UIActionType.findMatch),
   (MatchStatus.UNMATCHED, UIActionType.findMatch),
   (MatchStatus.UNMATCHED, UIActionType.markExternal)]

/-! ## Claim C10: status mapping and its prototype-chain leak -/

/-- C10 counterexample: `"constructor"` lowercases to itself and is none of
the six mapped strings, so the claim requires it to map to UNMATCHED; but in
the program `statusMap['constructor']` is the truthy
`Object.prototype.constructor` inherited through the prototype chain, so the
`|| 'UNMATCHED'` fallback is never reached and the call returns that non-enum
value. -/
theorem C10_counterexample :
    "constructor" ∈ objectPrototypeMembers ∧
    jsToLower "constructor"
      ∉ ["auto_matched", "needs_review", "unmatched", "confirmed",
         "external", "pending"] ∧
    mapStatusToEnum "constructor"
      = StatusLookupResult.inherited "constructor" ∧
    mapStatusToEnum "constructor"
      ≠ StatusLookupResult.enum MatchStatus.UNMATCHED := by
  refine ⟨by decide, by decide, by decide, by decide⟩

/-- C10 amended: the lowercased strings `auto_matched`, `needs_review`,
`unmatched`, `confirmed`, `external` map to the corresponding enum values and
`pending` maps to NEEDS_REVIEW; every other string maps to UNMATCHED *except*
those whose lowercased form is an `Object.prototype` property name
(reachably, `constructor` and `__proto__`): for those the object lookup
returns the truthy inherited prototype member, the fallback is unreachable,
and the result is not a valid `MatchStatus` — the mapping is not total with
an UNMATCHED fallback. -/
theorem C10_amended_mapping_with_prototype_leak :
    (∀ s : String, jsToLower s = "auto_matched" →
      mapStatusToEnum s = StatusLookupResult.enum MatchStatus.AUTO_MATCHED) ∧
    (∀ s : String, jsToLower s = "needs_review" →
      mapStatusToEnum s = StatusLookupResult.enum MatchStatus.NEEDS_REVIEW) ∧
    (∀ s : String, jsToLower s = "unmatched" →
      mapStatusToEnum s = StatusLookupResult.enum MatchStatus.UNMATCHED) ∧
    (∀ s : String, jsToLower s = "confirmed" →
      mapStatusToEnum s = StatusLookupResult.enum MatchStatus.CONFIRMED) ∧
    (∀ s : String, jsToLower s = "external" →
      mapStatusToEnum s = StatusLookupResult.enum MatchStatus.EXTERNAL) ∧
    (∀ s : String, jsToLower s = "pending" →
      mapStatusToEnum s = StatusLookupResult.enum MatchStatus.NEEDS_REVIEW) ∧
    (∀ s : String,
      jsToLower s ∉ ["auto_matched", "needs_review", "unmatched", "confirmed",
        "external", "pending"] →
      jsToLower s ∉ objectPrototypeMembers →
      mapStatusToEnum s = StatusLookupResult.enum MatchStatus.UNMATCHED) ∧
    (∀ s : String, jsToLower s ∈ objectPrototypeMembers →
      mapStatusToEnum s = StatusLookupResult.inherited (jsToLower s)) := by
  refine ⟨?_, ?_, ?_, ?_, ?_, ?_, ?_, ?_⟩
  case _ => intro s h; unfold mapStatusToEnum; rw [h]; decide
  case _ => intro s h; unfold mapStatusToEnum; rw [h]; decide
  case _ => intro s h; unfold mapStatusToEnum; rw [h]; decide
  case _ => intro s h; unfold mapStatusToEnum; rw [h]; decide
  case _ => intro s h; unfold mapStatusToEnum; rw [h]; decide
  case _ => intro s h; unfold mapStatusToEnum; rw [h]; decide
  case _ =>
    intro s h hm
    simp only [List.mem_cons, List.not_mem_nil, or_false, not_or] at h
    obtain ⟨h1, h2, h3, h4, h5, h6⟩ := h
    have b1 : (jsToLower s == "auto_matched") = false :=
      beq_eq_false_iff_ne.mpr h1
    have b2 : (jsToLower s == "needs_review") = false :=
      beq_eq_false_iff_ne.mpr h2
    have b3 : (jsToLower s == "unmatched") = false :=
      beq_eq_false_iff_ne.mpr h3
    have b4 : (jsToLower s == "confirmed") = false :=
      beq_eq_false_iff_ne.mpr h4
    have b5 : (jsToLower s == "external") = false :=
      beq_eq_false_iff_ne.mpr h5
    have b6 : (jsToLower s == "pending") = false :=
      beq_eq_false_iff_ne.mpr h6
    simp [mapStatusToEnum, statusMap, List.lookup, b1, b2, b3, b4, b5, b6, hm]
  case _ =>
    intro s h
    simp only [objectPrototypeMembers, List.mem_cons, List.not_mem_nil,
      or_false] at h
    rcases h with h | h | h | h | h | h | h | h | h | h | h | h <;>
      (unfold mapStatusToEnum; rw [h]; decide)

/-- Witness for the amended C10 at concrete inputs, including the reachable
prototype members. -/
theorem C10_amended_witness :
    mapStatusToEnum "AUTO_MATCHED"
      = StatusLookupResult.enum MatchStatus.AUTO_MATCHED ∧
    mapStatusToEnum "Pending"
      = StatusLookupResult.enum MatchStatus.NEEDS_REVIEW ∧
    mapStatusToEnum "bogus"
      = StatusLookupResult.enum MatchStatus.UNMATCHED ∧
    mapStatusToEnum "__proto__"
      = StatusLookupResult.inherited "__proto__" := by
  refine ⟨C10_amended_mapping_with_prototype_leak.1 "AUTO_MATCHED" (by decide),
    C10_amended_mapping_with_prototype_leak.2.2.2.2.2.1 "Pending" (by decide),
    C10_amended_mapping_with_prototype_leak.2.2.2.2.2.2.1 "bogus" (by decide)
      (by decide), ?_⟩
  have h := C10_amended_mapping_with_prototype_leak.2.2.2.2.2.2.2 "__proto__"
    (by decide)
  rw [show jsToLower "__proto__" = "__proto__" from by decide] at h
  exact h

/-! ## Claim C7: filter change clears synchronously -/

/-- C7: assigning a new status filter synchronously clears the loaded rows,
the cursor and the has-more flag and records the new filter; the subsequent
pending transition of the fetch issued for the new filter still shows an empty
sequence, so nothing is visible until that fetch resolves. -/
theorem C7_setFilterStatus_clears_before_fetch (s : TransactionsState)
    (v : Option MatchStatus) :
    (setFilterStatus s v).transactions = [] ∧
    (setFilterStatus s v).nextCursor = none ∧
    (setFilterStatus s v).hasMore = false ∧
    (setFilterStatus s v).filterStatus = v ∧
    (fetchBatchTransactionsPending (setFilterStatus s v) false).transactions
      = [] :=
  ⟨rfl, rfl, rfl, rfl, rfl⟩

/-! ## Claim C8: failed fetch preserves loaded rows and records an error -/

/-- C8: the rejected transition of a collection fetch leaves the loaded rows,
cursor, has-more flag and pagination untouched, clears both loading flags, and
records a non-null error message. -/
theorem C8_fetch_rejected_preserves_rows (s : TransactionsState)
    (payload : Option String) :
    (fetchBatchTransactionsRejected s payload).transactions = s.transactions ∧
    (fetchBatchTransactionsRejected s payload).nextCursor = s.nextCursor ∧
    (fetchBatchTransactionsRejected s payload).hasMore = s.hasMore ∧
    (fetchBatchTransactionsRejected s payload).pagination = s.pagination ∧
    (fetchBatchTransactionsRejected s payload).filterStatus = s.filterStatus ∧
    (fetchBatchTransactionsRejected s payload).loading = false ∧
    (fetchBatchTransactionsRejected s payload).loadingMore = false ∧
    (fetchBatchTransactionsRejected s payload).error
      = some (jsOrString payload "Failed to fetch transactions") :=
  ⟨rfl, rfl, rfl, rfl, rfl, rfl, rfl, rfl⟩

/-! ## Claim C1: fate of a fetch still in flight across a filter change -/

/-- Row returned by the stale fetch A in the C1 counterexample trace. -/
def c1_rowA : BankTransaction :=
  { id := "txA1", transactionDate := "2024-01-02", description := "wire",
    amount := ⟨100, 0⟩, status := MatchStatus.AUTO_MATCHED,
    confidenceScore := none, matchedInvoice := none, batchId := "b1" }

/-- State from which the C1 trace starts: viewing batch b1 under filter
AUTO_MATCHED. -/
def c1_start : TransactionsState :=
  { initialState with currentBatchId := some "b1",
                      filterStatus := some MatchStatus.AUTO_MATCHED }

/-- Payload with which the stale fetch A (issued under the old filter, replace
mode) resolves. -/
def c1_payloadA : FetchFulfilledPayload :=
  { data := [c1_rowA], nextCursor := none, hasMore := some false,
    append := false, pagination := none }

/-- C1 counterexample: issue fetch A under filter AUTO_MATCHED (pending),
change the filter to NEEDS_REVIEW, then let A resolve.  A's resolution
populates the collection with A's row — the claim asserts the collection
contains no rows from A's response. -/
theorem C1_counterexample :
    (fetchBatchTransactionsFulfilled
      (setFilterStatus (fetchBatchTransactionsPending c1_start false)
        (some MatchStatus.NEEDS_REVIEW))
      c1_payloadA).transactions = [c1_rowA] ∧
    c1_rowA ∈ (fetchBatchTransactionsFulfilled
      (setFilterStatus (fetchBatchTransactionsPending c1_start false)
        (some MatchStatus.NEEDS_REVIEW))
      c1_payloadA).transactions := by
  constructor
  · rfl
  · decide

/-- C1 amended: the fulfilled transition of a collection fetch is honored
unconditionally — the slice does not tag fetches with the filter they were
issued under.  In the claim's interleaving (fetch A issued under filter X,
filter changed to Y before A resolves, A in replace mode) the collection after
A resolves consists exactly of A's rows; more generally a replace-mode
fulfilled payload overwrites the collection whatever the current filter is.
Stale rows are only mitigated by the synchronous clear at filter-change time
(claim C7). -/
theorem C1_amended_stale_fetch_populates (s : TransactionsState)
    (oldFilter newFilter : Option MatchStatus) (p : FetchFulfilledPayload)
    (hA : p.append = false) (hPg : p.pagination = none) :
    (fetchBatchTransactionsFulfilled
      (setFilterStatus
        (fetchBatchTransactionsPending { s with filterStatus := oldFilter }
          false)
        newFilter)
      p).transactions = p.data ∧
    (∀ s2 : TransactionsState,
      (fetchBatchTransactionsFulfilled s2 p).transactions = p.data) := by
  constructor
  · simp [fetchBatchTransactionsFulfilled, hA, hPg]
  · intro s2
    simp [fetchBatchTransactionsFulfilled, hA, hPg]

/-- Witness for the amended C1 at a concrete trace. -/
theorem C1_amended_witness :
    c1_payloadA.append = false ∧ c1_payloadA.pagination = none ∧
    ((fetchBatchTransactionsFulfilled
      (setFilterStatus
        (fetchBatchTransactionsPending
          { c1_start with filterStatus := some MatchStatus.AUTO_MATCHED }
          false)
        (some MatchStatus.NEEDS_REVIEW))
      c1_payloadA).transactions = c1_payloadA.data ∧
    (∀ s2 : TransactionsState,
      (fetchBatchTransactionsFulfilled s2 c1_payloadA).transactions
        = c1_payloadA.data)) :=
  ⟨rfl, rfl,
   C1_amended_stale_fetch_populates c1_start (some MatchStatus.AUTO_MATCHED)
     (some MatchStatus.NEEDS_REVIEW) c1_payloadA rfl rfl⟩

/-! ## Claim C6: successful confirm replaces exactly the target row -/

/-- Position of the first row matching the payload id, when the rows split as
`l1 ++ t :: l2` with no match in `l1`: it is `l1.length` (shifted by the
accumulator `i` of `findIdx?`). -/
lemma findIdx_first_match (pl : BankTransaction) :
    ∀ (l1 l2 : List BankTransaction) (t : BankTransaction) (i : Nat),
      t.id = pl.id → (∀ u ∈ l1, u.id ≠ pl.id) →
      (l1 ++ t :: l2).findIdx? (fun x => x.id == pl.id) i
        = some (i + l1.length) := by
  intro l1
  induction l1 with
  | nil =>
      intro l2 t i ht _
      simp [List.findIdx?_cons, ht]
  | cons u l1 ih =>
      intro l2 t i ht hu
      have hu1 : (u.id == pl.id) = false :=
        beq_eq_false_iff_ne.mpr (hu u (List.mem_cons_self u l1))
      rw [List.cons_append, List.findIdx?_cons, hu1]
      simp only [Bool.false_eq_true, if_false]
      rw [ih l2 t (i + 1) ht (fun x hx => hu x (List.mem_cons_of_mem u hx))]
      congr 1
      simp
      omega

/-- Setting index `l1.length` of `l1 ++ t :: l2` replaces `t`. -/
lemma set_at_split (pl : BankTransaction) :
    ∀ (l1 l2 : List BankTransaction) (t : BankTransaction),
      (l1 ++ t :: l2).set l1.length pl = l1 ++ pl :: l2 := by
  intro l1
  induction l1 with
  | nil => intro l2 t; rfl
  | cons u l1 ih => intro l2 t; simp [List.set, ih l2 t]

/-- C6: when a confirm for transaction T succeeds and the collection splits as
`l1 ++ t :: l2` with `t` the first (and, when ids are unique, the only) row
whose id matches the server-returned transaction, the fulfilled transition
replaces exactly that row with the server object, clears the in-flight action
marker, and leaves every other row — and the rest of the state — unchanged,
in the same order. -/
theorem C6_confirm_fulfilled_replaces_only_target (s : TransactionsState)
    (payload t : BankTransaction) (l1 l2 : List BankTransaction)
    (hsplit : s.transactions = l1 ++ t :: l2)
    (hid : t.id = payload.id)
    (hfirst : ∀ u ∈ l1, u.id ≠ payload.id) :
    (confirmMatchFulfilled s payload).transactions = l1 ++ payload :: l2 ∧
    (confirmMatchFulfilled s payload).actionLoading = none ∧
    (confirmMatchFulfilled s payload).error = s.error ∧
    (confirmMatchFulfilled s payload).nextCursor = s.nextCursor ∧
    (confirmMatchFulfilled s payload).hasMore = s.hasMore ∧
    (confirmMatchFulfilled s payload).filterStatus = s.filterStatus ∧
    (confirmMatchFulfilled s payload).loading = s.loading := by
  have h1 := findIdx_first_match payload l1 l2 t 0 hid hfirst
  have h2 := set_at_split payload l1 l2 t
  simp only [Nat.zero_add] at h1
  simp [confirmMatchFulfilled, hsplit, h1, h2]

/-- Untouched sibling row used in the C6 witness. -/
def c6_rowOther : BankTransaction :=
  { id := "tx9", transactionDate := "2024-01-03", description := "ach",
    amount := ⟨25, 0⟩, status := MatchStatus.UNMATCHED,
    confidenceScore := none, matchedInvoice := none, batchId := "b1" }

/-- Row being confirmed in the C6 witness. -/
def c6_rowT : BankTransaction :=
  { id := "tx5", transactionDate := "2024-01-04", description := "card",
    amount := ⟨995, -1⟩, status := MatchStatus.AUTO_MATCHED,
    confidenceScore := some ⟨92, 0⟩, matchedInvoice := none, batchId := "b1" }

/-- Server-returned transaction for the C6 witness. -/
def c6_payload : BankTransaction :=
  { c6_rowT with status := MatchStatus.CONFIRMED }

/-- State before the confirm resolves in the C6 witness. -/
def c6_state : TransactionsState :=
  { initialState with
      transactions := [c6_rowOther, c6_rowT],
      actionLoading := some ⟨"tx5", ActionType.confirm⟩ }

/-- Witness for C6 on a concrete two-row collection. -/
theorem C6_witness :
    c6_state.transactions = [c6_rowOther] ++ c6_rowT :: [] ∧
    c6_rowT.id = c6_payload.id ∧
    ((confirmMatchFulfilled c6_state c6_payload).transactions
        = [c6_rowOther] ++ c6_payload :: [] ∧
      (confirmMatchFulfilled c6_state c6_payload).actionLoading = none ∧
      (confirmMatchFulfilled c6_state c6_payload).error = c6_state.error ∧
      (confirmMatchFulfilled c6_state c6_payload).nextCursor
        = c6_state.nextCursor ∧
      (confirmMatchFulfilled c6_state c6_payload).hasMore = c6_state.hasMore ∧
      (confirmMatchFulfilled c6_state c6_payload).filterStatus
        = c6_state.filterStatus ∧
      (confirmMatchFulfilled c6_state c6_payload).loading
        = c6_state.loading) :=
  ⟨rfl, rfl,
   C6_confirm_fulfilled_replaces_only_target c6_state c6_payload c6_rowT
     [c6_rowOther] [] rfl rfl (by decide)⟩

/-! ## Claim C5: legal action matrix and synchronous rejection -/

/-- C5: the actions the TransactionActions component offers coincide exactly
with the claim's legal matrix, and a user attempt at an action the matrix does
not permit goes nowhere — no button is rendered, so the click changes no state
and issues no network request; in particular a confirm attempt on an UNMATCHED
transaction issues no network call. -/
theorem C5_action_matrix_and_gating :
    (∀ (st : MatchStatus) (a : UIActionType),
      actionRendered st a = true ↔ (st, a) ∈ legalActionMatrix) ∧
    (∀ (s : TransactionsState) (t : BankTransaction) (a : UIActionType),
      actionRendered t.status a = false → clickRowAction s t a = (s, [])) ∧
    (∀ (s : TransactionsState) (t : BankTransaction),
      t.status = MatchStatus.UNMATCHED →
      clickRowAction s t UIActionType.confirm = (s, [])) := by
  refine ⟨?_, ?_, ?_⟩
  · intro st a
    cases st <;> cases a <;>
      simp [actionRendered, canConfirm, canReject, canFindMatch,
        canMarkExternal, legalActionMatrix]
  · intro s t a h
    simp [clickRowAction, h]
  · intro s t h
    have hr : actionRendered t.status UIActionType.confirm = false := by
      simp [actionRendered, canConfirm, h]
    simp [clickRowAction, hr]

/-- UNMATCHED transaction used in the C5 and C2 witnesses. -/
def c5_txn : BankTransaction :=
  { id := "tx7", transactionDate := "2024-01-05", description := "fees",
    amount := ⟨12, 0⟩, status := MatchStatus.UNMATCHED,
    confidenceScore := none, matchedInvoice := none, batchId := "b1" }

/-- Witness for C5: a confirm click on a concrete UNMATCHED transaction issues
no request and leaves the state unchanged. -/
theorem C5_witness :
    c5_txn.status = MatchStatus.UNMATCHED ∧
    clickRowAction initialState c5_txn UIActionType.confirm
      = (initialState, []) :=
  ⟨rfl, C5_action_matrix_and_gating.2.2 initialState c5_txn rfl⟩

/-! ## Claim C2: at most one in-flight single-row action per transaction -/

/-- C2: triggering confirm twice in rapid succession on the same transaction —
the second attempt arriving while the first is still in flight — issues
exactly one network request.  The first click dispatches the thunk, whose
pending reducer records the `actionLoading` marker for this id; the row's
action buttons are disabled whenever `actionLoadingId === txn.id`, so the
second click reaches no handler, dispatches nothing, and issues no request. -/
theorem C2_double_confirm_single_request (s : TransactionsState)
    (t : BankTransaction) (h1 : s.actionLoading = none)
    (h2 : canConfirm t.status = true) :
    clickRowAction s t UIActionType.confirm
      = (confirmMatchPending s t.id, [confirmMatchRequest t.id]) ∧
    clickRowAction (confirmMatchPending s t.id) t UIActionType.confirm
      = (confirmMatchPending s t.id, []) ∧
    ((clickRowAction s t UIActionType.confirm).2 ++
      (clickRowAction (clickRowAction s t UIActionType.confirm).1 t
        UIActionType.confirm).2).length = 1 := by
  have hr : actionRendered t.status UIActionType.confirm = true := h2
  have hnl : isActionLoadingFor s t.id = false := by
    simp [isActionLoadingFor, h1]
  have e1 : clickRowAction s t UIActionType.confirm
      = (confirmMatchPending s t.id, [confirmMatchRequest t.id]) := by
    simp [clickRowAction, hr, hnl]
  have hl2 : isActionLoadingFor (confirmMatchPending s t.id) t.id = true := by
    simp [isActionLoadingFor, confirmMatchPending]
  have e2 : clickRowAction (confirmMatchPending s t.id) t UIActionType.confirm
      = (confirmMatchPending s t.id, []) := by
    simp [clickRowAction, hr, hl2]
  refine ⟨e1, e2, ?_⟩
  rw [e1, e2]
  rfl

/-- AUTO_MATCHED transaction used in the C2 witness. -/
def c2_txn : BankTransaction :=
  { id := "tx3", transactionDate := "2024-01-06", description := "invoice",
    amount := ⟨450, 0⟩, status := MatchStatus.AUTO_MATCHED,
    confidenceScore := some ⟨97, 0⟩, matchedInvoice := none, batchId := "b1" }

/-- Witness for C2 on a concrete transaction with no action in flight. -/
theorem C2_witness :
    initialState.actionLoading = none ∧
    canConfirm c2_txn.status = true ∧
    (clickRowAction initialState c2_txn UIActionType.confirm
        = (confirmMatchPending initialState c2_txn.id,
           [confirmMatchRequest c2_txn.id]) ∧
      clickRowAction (confirmMatchPending initialState c2_txn.id) c2_txn
          UIActionType.confirm
        = (confirmMatchPending initialState c2_txn.id, []) ∧
      ((clickRowAction initialState c2_txn UIActionType.confirm).2 ++
        (clickRowAction
          (clickRowAction initialState c2_txn UIActionType.confirm).1 c2_txn
          UIActionType.confirm).2).length = 1) :=
  ⟨rfl, rfl, C2_double_confirm_single_request initialState c2_txn rfl rfl⟩

/-! ## Claim C3: abandonment after three consecutive poll failures -/

/-- With no pending timeout, timer events issue no fetch and change nothing. -/
lemma runPoller_no_pending (s : PollerState) (hs : s.pendingDelay = none) :
    ∀ os : List PollOutcome,
      runPoller s (os.map PollerEvent.timerFires) = (s, 0) := by
  intro os
  induction os with
  | nil => rfl
  | cons o os ih => simp [runPoller, pollerStep, hs, ih]

/-- C3: from a polling state (counter 0, a poll scheduled), three consecutive
poll failures abandon the poller: polling is switched off, the error (the
thrown message or the generic connectivity message) is surfaced, and no
further fetch is scheduled; thereafter any number of timer events issues zero
fetches and leaves the state fixed, while an explicit retry resets the error
counter, re-enables polling, issues exactly one fetch, and (when it succeeds
on a still-processing batch) schedules the next poll at the base interval. -/
theorem C3_three_failures_abandon (s : PollerState) (d : Nat)
    (m1 m2 m3 : Option String) (hp : s.shouldPoll = true)
    (hc : s.consecutiveErrors = 0) (hd : s.pendingDelay = some d) :
    (afterThreeFailures s m1 m2 m3).shouldPoll = false ∧
    (afterThreeFailures s m1 m2 m3).surfacedError
      = some (pollAbandonMessage m3) ∧
    (afterThreeFailures s m1 m2 m3).pendingDelay = none ∧
    (∀ os : List PollOutcome,
      runPoller (afterThreeFailures s m1 m2 m3)
        (os.map PollerEvent.timerFires)
        = (afterThreeFailures s m1 m2 m3, 0)) ∧
    (∀ b : Batch, b.status = BatchStatus.PROCESSING →
      (pollerStep (afterThreeFailures s m1 m2 m3)
        (PollerEvent.retryClick (PollOutcome.success b))).2 = 1 ∧
      (pollerStep (afterThreeFailures s m1 m2 m3)
        (PollerEvent.retryClick (PollOutcome.success b))).1.consecutiveErrors
        = 0 ∧
      (pollerStep (afterThreeFailures s m1 m2 m3)
        (PollerEvent.retryClick (PollOutcome.success b))).1.shouldPoll
        = true ∧
      (pollerStep (afterThreeFailures s m1 m2 m3)
        (PollerEvent.retryClick (PollOutcome.success b))).1.pendingDelay
        = some BATCH_PROGRESS) := by
  have e3 : afterThreeFailures s m1 m2 m3
      = { s with shouldPoll := false, consecutiveErrors := 3,
                 pendingDelay := none,
                 surfacedError := some (pollAbandonMessage m3) } := by
    unfold afterThreeFailures
    simp [pollerStep, hd, fetchBatchStatus, hc, hp]
  refine ⟨by rw [e3], by rw [e3], by rw [e3], ?_, ?_⟩
  · intro os
    exact runPoller_no_pending _ (by rw [e3]) os
  · intro b hb
    rw [e3]
    simp [pollerStep, fetchBatchStatus, hb]

/-- Polling state used in the C3 witness: counter 0, next poll scheduled. -/
def c3_state : PollerState :=
  { shouldPoll := true, consecutiveErrors := 0,
    pendingDelay := some BATCH_PROGRESS, surfacedError := none,
    completedCalled := false, currentBatch := none }

/-- Witness for C3 at a concrete polling state and failure messages. -/
theorem C3_witness :
    c3_state.shouldPoll = true ∧
    c3_state.consecutiveErrors = 0 ∧
    c3_state.pendingDelay = some BATCH_PROGRESS ∧
    ((afterThreeFailures c3_state none none none).shouldPoll = false ∧
      (afterThreeFailures c3_state none none none).surfacedError
        = some (pollAbandonMessage none) ∧
      (afterThreeFailures c3_state none none none).pendingDelay = none ∧
      (∀ os : List PollOutcome,
        runPoller (afterThreeFailures c3_state none none none)
          (os.map PollerEvent.timerFires)
          = (afterThreeFailures c3_state none none none, 0)) ∧
      (∀ b : Batch, b.status = BatchStatus.PROCESSING →
        (pollerStep (afterThreeFailures c3_state none none none)
          (PollerEvent.retryClick (PollOutcome.success b))).2 = 1 ∧
        (pollerStep (afterThreeFailures c3_state none none none)
          (PollerEvent.retryClick
            (PollOutcome.success b))).1.consecutiveErrors = 0 ∧
        (pollerStep (afterThreeFailures c3_state none none none)
          (PollerEvent.retryClick (PollOutcome.success b))).1.shouldPoll
          = true ∧
        (pollerStep (afterThreeFailures c3_state none none none)
          (PollerEvent.retryClick (PollOutcome.success b))).1.pendingDelay
          = some BATCH_PROGRESS)) :=
  ⟨rfl, rfl, rfl,
   C3_three_failures_abandon c3_state BATCH_PROGRESS none none none
     rfl rfl rfl⟩

/-! ## Claim C4: linear backoff and reset to the base interval -/

/-- C4: every successful poll resets the consecutive-error counter to zero;
a success on a non-terminal batch schedules the next poll after exactly the
base interval (2000 ms); a failure that stays below the abandonment threshold
increments the counter and schedules the retry after base interval times the
new consecutive-error count (linear backoff). -/
theorem C4_backoff_linear_reset_on_success (s : PollerState) :
    (∀ b : Batch,
      (fetchBatchStatus s (PollOutcome.success b)).consecutiveErrors = 0) ∧
    (∀ b : Batch, s.shouldPoll = true →
      b.status ≠ BatchStatus.COMPLETED → b.status ≠ BatchStatus.FAILED →
      (fetchBatchStatus s (PollOutcome.success b)).pendingDelay
        = some BATCH_PROGRESS) ∧
    (∀ m : Option String, s.shouldPoll = true →
      s.consecutiveErrors + 1 < 3 →
      (fetchBatchStatus s (PollOutcome.failure m)).consecutiveErrors
        = s.consecutiveErrors + 1 ∧
      (fetchBatchStatus s (PollOutcome.failure m)).pendingDelay
        = some (BATCH_PROGRESS * (s.consecutiveErrors + 1))) := by
  refine ⟨?_, ?_, ?_⟩
  · intro b
    by_cases hbc : b.status = BatchStatus.COMPLETED
    · simp [fetchBatchStatus, hbc]
    · by_cases hbf : b.status = BatchStatus.FAILED
      · simp [fetchBatchStatus, hbc, hbf]
      · by_cases hsp : s.shouldPoll
        · simp [fetchBatchStatus, hbc, hbf, hsp]
        · simp [fetchBatchStatus, hbc, hbf, hsp]
  · intro b hsp hbc hbf
    simp [fetchBatchStatus, hbc, hbf, hsp]
  · intro m hsp hlt
    have h3 : ¬ 3 ≤ s.consecutiveErrors + 1 := by omega
    constructor
    · simp [fetchBatchStatus, h3, hsp]
    · simp [fetchBatchStatus, h3, hsp]

/-- Still-processing batch snapshot used in the C4 witness. -/
def c4_batch : Batch :=
  { id := "b1", filename := "jan.csv", status := BatchStatus.PROCESSING,
    totalTransactions := 100, processedCount := 40, autoMatchedCount := 10,
    needsReviewCount := 5, unmatchedCount := 25 }

/-- Poller state with one consecutive error used in the C4 witness. -/
def c4_state : PollerState :=
  { shouldPoll := true, consecutiveErrors := 1, pendingDelay := none,
    surfacedError := none, completedCalled := false, currentBatch := none }

/-- Witness for C4 at a concrete state, batch and failure. -/
theorem C4_witness :
    c4_state.shouldPoll = true ∧
    c4_batch.status ≠ BatchStatus.COMPLETED ∧
    c4_batch.status ≠ BatchStatus.FAILED ∧
    c4_state.consecutiveErrors + 1 < 3 ∧
    (fetchBatchStatus c4_state
      (PollOutcome.success c4_batch)).consecutiveErrors = 0 ∧
    (fetchBatchStatus c4_state (PollOutcome.success c4_batch)).pendingDelay
      = some BATCH_PROGRESS ∧
    ((fetchBatchStatus c4_state
        (PollOutcome.failure none)).consecutiveErrors
        = c4_state.consecutiveErrors + 1 ∧
      (fetchBatchStatus c4_state (PollOutcome.failure none)).pendingDelay
        = some (BATCH_PROGRESS * (c4_state.consecutiveErrors + 1))) :=
  ⟨rfl, by decide, by decide, by decide,
   (C4_backoff_linear_reset_on_success c4_state).1 c4_batch,
   (C4_backoff_linear_reset_on_success c4_state).2.1 c4_batch rfl
     (by decide) (by decide),
   (C4_backoff_linear_reset_on_success c4_state).2.2 none rfl (by decide)⟩

/-! ## Claim C9: debounced search interpretation -/

/-- Transaction being manually matched in the C9 scenarios. -/
def c9_txn : BankTransaction :=
  { id := "tx2", transactionDate := "2024-01-07", description := "transfer",
    amount := ⟨4200, -2⟩, status := MatchStatus.NEEDS_REVIEW,
    confidenceScore := none, matchedInvoice := none, batchId := "b1" }

/-- C9 counterexample: the input `"1.0"` parses entirely as a number, so the
claim mandates an exact-amount search carrying the value 1; but the code's
numeric test is `query.trim() === String(parseFloat(query))`, and
`String(parseFloat("1.0"))` is `"1"`, so the code issues a free-text search
for `"1.0"` instead. -/
theorem C9_counterexample :
    parsesEntirelyAsNumber "1.0" = true ∧
    jsParseFloat "1.0" = some (JsFloat.finite (2 ^ 52) (-52)) ∧
    jsNumToString (JsFloat.finite (2 ^ 52) (-52)) = "1" ∧
    doSearchInvoices "1.0" (some c9_txn)
      = [SearchRequest.byText "1.0" 20] ∧
    SearchRequest.byText "1.0" 20
      ≠ SearchRequest.byAmount (JsFloat.finite (2 ^ 52) (-52)) 20 := by
  refine ⟨by decide, by decide, by decide, by decide, by decide⟩

/-- An input burst whose non-final gaps stay below the quiet period settles
exactly once, on the final value. -/
lemma settled_burst :
    ∀ (init : List (String × Nat)) (v : String) (gap : Nat),
      (∀ p ∈ init, p.2 < DEBOUNCE_DELAY) →
      settledValues (init ++ [(v, gap)]) = [v] := by
  intro init
  induction init with
  | nil => intro v gap _; rfl
  | cons u init ih =>
      intro v gap h
      obtain ⟨u1, u2⟩ := u
      have hu2 : u2 < DEBOUNCE_DELAY := h (u1, u2) (List.mem_cons_self _ _)
      have hng : ¬ DEBOUNCE_DELAY ≤ u2 := by omega
      rw [List.cons_append]
      cases hi : init ++ [(v, gap)] with
      | nil => exact absurd hi (by simp)
      | cons x xs =>
          rw [show settledValues ((u1, u2) :: x :: xs)
              = (if DEBOUNCE_DELAY ≤ u2 then [u1] else []) ++
                  settledValues (x :: xs) from rfl,
            if_neg hng, List.nil_append, ← hi]
          exact ih v gap (fun p hp => h p (List.mem_cons_of_mem _ hp))

/-- C9 amended: the settled search input is interpreted as follows — the
request is an exact-amount search when the trimmed input is precisely the
canonical JS rendering (`String(...)`) of the double its `parseFloat` yields
(so `"100.5"` searches by amount, while inputs such as `"1.0"`, `"007"` or
`"0.0000001"`, though they parse entirely as numbers, are sent as free text
because the rendering differs); otherwise a non-empty trimmed input is sent
as a free-text query; an empty input falls back to the amount of the
transaction being matched; and a burst of inputs typed within the quiet
period (300 ms) issues exactly one search, on the last settled value. -/
theorem C9_amended_search_interpretation :
    (∀ (q : String) (tx : Option BankTransaction) (n : JsFloat),
      jsParseFloat q = some n → jsTrim q = jsNumToString n →
      doSearchInvoices q tx = [SearchRequest.byAmount n 20]) ∧
    (∀ (q : String) (tx : Option BankTransaction),
      (∀ n : JsFloat, jsParseFloat q = some n → jsTrim q ≠ jsNumToString n) →
      jsTrim q ≠ "" →
      doSearchInvoices q tx = [SearchRequest.byText (jsTrim q) 20]) ∧
    (∀ (q : String) (t : BankTransaction),
      jsParseFloat q = none → jsTrim q = "" →
      doSearchInvoices q (some t)
        = [SearchRequest.byAmount (decToJsFloat t.amount) 20]) ∧
    (∀ (t : BankTransaction) (init : List (String × Nat)) (v : String)
        (gap : Nat),
      (∀ p ∈ init, p.2 < DEBOUNCE_DELAY) → v ≠ "" →
      searchesAfterSettle (some t) (settledValues (init ++ [(v, gap)])) ""
          true
        = doSearchInvoices v (some t)) := by
  refine ⟨?_, ?_, ?_, ?_⟩
  · intro q tx n hp he
    simp [doSearchInvoices, hp, he]
  · intro q tx hno hne
    cases hpq : jsParseFloat q with
    | none => simp [doSearchInvoices, hpq, searchFallback, hne]
    | some n =>
        have hb : (jsTrim q == jsNumToString n) = false :=
          beq_eq_false_iff_ne.mpr (hno n hpq)
        simp [doSearchInvoices, hpq, hb, searchFallback, hne]
  · intro q t hpn htr
    simp [doSearchInvoices, hpn, searchFallback, htr]
  · intro t init v gap hgaps hv
    rw [settled_burst init v gap hgaps]
    simp [searchesAfterSettle, hv]

/-- Witness for the amended C9: the amount input `"100.5"`, the text input
`"ACME"`, the empty input, and the burst `"100"`, `"100.5"`, `"ACME"` typed
within the quiet period. -/
theorem C9_amended_witness :
    doSearchInvoices "100.5" (some c9_txn)
      = [SearchRequest.byAmount (JsFloat.finite 7072058789855232 (-46)) 20] ∧
    doSearchInvoices "ACME" (some c9_txn)
      = [SearchRequest.byText "ACME" 20] ∧
    doSearchInvoices "" (some c9_txn)
      = [SearchRequest.byAmount (decToJsFloat c9_txn.amount) 20] ∧
    searchesAfterSettle (some c9_txn)
        (settledValues ([("100", 80), ("100.5", 150)] ++ [("ACME", 400)])) ""
        true
      = doSearchInvoices "ACME" (some c9_txn) :=
  ⟨C9_amended_search_interpretation.1 "100.5" (some c9_txn)
     (JsFloat.finite 7072058789855232 (-46)) (by decide) (by decide),
   C9_amended_search_interpretation.2.1 "ACME" (some c9_txn)
     (by intro n h
         rw [show jsParseFloat "ACME" = none from by decide] at h
         exact Option.noConfusion h)
     (by decide),
   C9_amended_search_interpretation.2.2.1 "" c9_txn (by decide) (by decide),
   C9_amended_search_interpretation.2.2.2 c9_txn [("100", 80), ("100.5", 150)]
     "ACME" 400 (by decide) (by decide)⟩

end PaymentRecon
